import Mathlib

/-!
# EST CA client (`client/est_ca_client.go`)

A shallow embedding of the client side of the EST CA: the process-wide
credential pair (`cid`, `cpk`), the transport connector
(`getconnectedsocket`), the secure session establisher (`getconnectedcssl`)
and the four operations `GetCaFingerprint`, `CreateEnrollmentProfile`,
`GetCACert` and `GetIDCert`.

Go strings are byte sequences.  The calls into `syscall`, `cssl`, `chttp`
and `cca` are collected in the record `Deps`: their results are inputs of
the model.  Every effect on a socket, a secure session or the credential
pair, and every invocation of a response handler, is appended to the trace
of the state, in the order in which the Go code performs it.  Deferred calls
run when the function returns, last deferred first, also when it panics.
-/

namespace Caclient

/-- A Go `string`: an immutable sequence of bytes. -/
abbrev GoString := List (Fin 256)

/-- A Go `error` value, identified by its message; `nil` is `none`. -/
abbrev GoError := String

/-- The bytes of an ASCII literal. -/
def ascii (s : String) : GoString := s.toList.map (fun c => Fin.ofNat c.toNat)

/-! ## `strings.Index`, `strings.Count`, `strings.Split` (Go standard library) -/

/-- Go library function `strings.Index(s, substr)`: the position of the first occurrence of
`substr` in `s`; `none` stands for `-1`. -/
def Index : GoString → GoString → Option Nat
  | [], substr => if substr = [] then some 0 else none
  | c :: cs, substr =>
    if substr <+: c :: cs then some 0 else (Index cs substr).map (· + 1)

/-- The loop of `strings.Count` for a non-empty `substr`: find the first
occurrence, count it, continue behind it.  Each round consumes at least one
byte, so `s.length` rounds always suffice. -/
def countLoop (substr : GoString) : Nat → GoString → Nat
  | 0, _ => 0
  | fuel + 1, s =>
    match Index s substr with
    | none => 0
    | some i => countLoop substr fuel (s.drop (i + substr.length)) + 1

/-- Go library function `strings.Count(s, substr)`: the number of non-overlapping occurrences;
for the empty `substr` it is the number of characters plus one. -/
def Count (s substr : GoString) : Nat :=
  if substr = [] then s.length + 1 else countLoop substr s.length s

/-- The loop of `genSplit`: at most `n` cuts at the first occurrence of
`sep`, then the rest of the string as last element. -/
def genSplitLoop (sep : GoString) : Nat → GoString → List GoString
  | 0, s => [s]
  | n + 1, s =>
    match Index s sep with
    | none => [s]
    | some m => s.take m :: genSplitLoop sep n (s.drop (m + sep.length))

/-- Go library function `strings.Split(s, sep)` = `genSplit(s, sep, 0, -1)`: with `n < 0` the
result has room for `Count(s, sep) + 1` elements; an empty `sep` explodes
`s` into its characters. -/
def Split (s sep : GoString) : List GoString :=
  if sep = [] then s.map (fun c => [c]) else genSplitLoop sep (Count s sep) s

/-! ## Credential scope -/

/-- An effect of the client, as recorded in the trace. -/
inductive Event where
  /-- Call of `syscall.Socket`: the descriptor, or `none` for an error. -/
  | socket (fd : Option Int)
  /-- Call of `syscall.Connect(fd, addr)` and whether it succeeded. -/
  | connect (fd : Int) (ok : Bool)
  /-- Call of `syscall.Close(fd)`. -/
  | close (fd : Int)
  /-- Call of `setidpass(id, pk)`. -/
  | setidpass (id pk : GoString)
  /-- Call of `invalidateidpass()`. -/
  | invalidateidpass
  /-- Call of `cssl.CSSLGetNewClient(fd)`: the session object, or `none` for nil. -/
  | csslGetNewClient (fd : Int) (cSSL : Option Nat)
  /-- Call of `cssl.CSSLSetCipher(cSSL, suite)` and its result. -/
  | csslSetCipher (cSSL : Nat) (suite : GoString) (ok : Bool)
  /-- Call of `cssl.CSSLSetPSKClientID(cSSL, id)`. -/
  | csslSetPSKClientID (cSSL : Nat) (id : GoString)
  /-- Call of `cssl.CSSLClientConnect(cSSL)` and its status. -/
  | csslClientConnect (cSSL : Nat) (retval : Int)
  /-- Call of `cssl.CSSLWrite(cSSL, req, len)` and its status. -/
  | csslWrite (cSSL : Nat) (req : GoString) (len : Nat) (retval : Int)
  /-- Call of `cssl.CSSLReadN(cSSL, n)` and its status. -/
  | csslReadN (cSSL : Nat) (n : Nat) (rerr : Int)
  /-- Call of `cssl.CSSLDelete(cSSL)`. -/
  | csslDelete (cSSL : Nat)
  /-- A response handler of `chttp` is invoked on the bytes read. -/
  | handleResponse (resp : GoString)
  deriving DecidableEq, Repr

/-- The package variables `cid` and `cpk`, and the effects performed so far. -/
structure State where
  cid : GoString
  cpk : GoString
  trace : List Event
  deriving DecidableEq, Repr

/-- Append an effect to the trace. -/
def State.log (st : State) (e : Event) : State :=
  { st with trace := st.trace ++ [e] }

/-- Source function `getidpass(id)`: the PSK callback. -/
def getidpass (st : State) (id : GoString) : GoString :=
  if id ≠ [] ∧ id = st.cid then st.cpk else []

/-- Source function `setidpass(id, pk)`. -/
def setidpass (id pk : GoString) (st : State) : State :=
  { cid := id, cpk := pk, trace := st.trace ++ [Event.setidpass id pk] }

/-- Source function `invalidateidpass()`. -/
def invalidateidpass (st : State) : State :=
  { cid := [], cpk := [], trace := st.trace ++ [Event.invalidateidpass] }

/-! ## External collaborators -/

/-- An elliptic-curve private key produced by `cca.GenerateECKey`. -/
abbrev ECKey := Nat

/-- The subject attributes `*config.CertAttributes` of a signing request. -/
abbrev CertAttributes := Nat

/-- The functions and constants of `syscall`, `cssl`, `chttp` and `cca`
that the client calls.  Their code is outside this file; what they return
is an input of the model. -/
structure Deps where
  /-- Constant `cssl.CSSL_APP_ERR_EOK`. -/
  CSSL_APP_ERR_EOK : Int
  /-- Function `syscall.Socket(AF_INET, SOCK_STREAM, 0)`: a descriptor, or an error. -/
  Socket : Option Nat
  /-- Function `syscall.Connect(fd, &addr)` for the address `ip:port`: `true` when
  the error is nil. -/
  Connect : Int → GoString → Int → Bool
  /-- Function `cssl.CSSLGetNewClient(fd)`: a session object, or nil. -/
  CSSLGetNewClient : Int → Option Nat
  /-- Function `cssl.CSSLSetCipher(cSSL, suite)`. -/
  CSSLSetCipher : Nat → GoString → Bool
  /-- Function `cssl.CSSLClientConnect(cSSL)`; the handshake may call the PSK
  callback installed by `InitCAClient`, which is `getidpass`. -/
  CSSLClientConnect : Nat → (GoString → GoString) → Int
  /-- Function `cssl.CSSLWrite(cSSL, data, len)`. -/
  CSSLWrite : Nat → GoString → Nat → Int
  /-- Function `cssl.CSSLReadN(cSSL, n)`: bytes read, their number, status. -/
  CSSLReadN : Nat → Nat → GoString × Int × Int
  /-- Function `chttp.GetFingerprintRequest(caname)`. -/
  GetFingerprintRequest : GoString → GoString
  /-- Function `chttp.HandleGetFingerprintResponse(resp)`: algorithm, fingerprint
  bytes, error. -/
  HandleGetFingerprintResponse : GoString → Int × GoString × Option GoError
  /-- Function `chttp.GetCreateEnrolProfRequest(eid, esecret, caprofile, caname, role)`. -/
  GetCreateEnrolProfRequest :
    GoString → GoString → GoString → GoString → GoString → GoString
  /-- Function `chttp.HandleCreateEnrolProfResponse(resp)`. -/
  HandleCreateEnrolProfResponse : GoString → Bool
  /-- Function `chttp.GetGetCACertRequest()`. -/
  GetGetCACertRequest : GoString
  /-- Function `chttp.HandleGetCACertResponse(resp)`. -/
  HandleGetCACertResponse : GoString → GoString × Option GoError
  /-- Function `cca.GenerateECKey(kcurve)`. -/
  GenerateECKey : Nat → ECKey × Option GoError
  /-- Function `cca.GenerateECCSR(csr, pkey, sigalgo)`. -/
  GenerateECCSR : CertAttributes → ECKey → Nat → GoString × Option GoError
  /-- Function `chttp.GetSimpleEnrollRequest(csr)`. -/
  GetSimpleEnrollRequest : GoString → GoString
  /-- Function `chttp.HandleSimpleEnrollResponse(resp)`. -/
  HandleSimpleEnrollResponse : GoString → GoString × Option GoError
  /-- Function `cca.GetECKeyPemWithAttr(pkey, kcurve)`. -/
  GetECKeyPemWithAttr : ECKey → Nat → GoString

/-- The cipher suite `"PSK-AES256-CBC-SHA"`. -/
def pskCipherSuite : GoString := ascii "PSK-AES256-CBC-SHA"

/-- The separator `"\n\n"` between the parameters block and the key block. -/
def blankLine : GoString := [10, 10]

/-- Source function `syscall.Close(fd)`. -/
def syscallClose (fd : Int) (st : State) : State :=
  st.log (Event.close fd)

/-- Source function `cssl.CSSLDelete(cSSL)`. -/
def CSSLDelete (cSSL : Nat) (st : State) : State :=
  st.log (Event.csslDelete cSSL)

/-! ## Transport connector and secure session establisher -/

/-- Source function `getconnectedsocket(ip, port)`: the connected descriptor, or `-1`. -/
def getconnectedsocket (d : Deps) (ip : GoString) (port : Int) (st : State) :
    Int × State :=
  match d.Socket with
  | none => (-1, st.log (Event.socket none))
  | some fd =>
    let st := st.log (Event.socket (some (fd : Int)))
    if d.Connect fd ip port then
      (fd, st.log (Event.connect fd true))
    else
      (-1, st.log (Event.connect fd false))

/-- Source function `getconnectedcssl(fd, id)`: the session after a completed handshake, or
nil. -/
def getconnectedcssl (d : Deps) (fd : Int) (id : GoString) (st : State) :
    Option Nat × State :=
  match d.CSSLGetNewClient fd with
  | none => (none, st.log (Event.csslGetNewClient fd none))
  | some cSSL =>
    let st := st.log (Event.csslGetNewClient fd (some cSSL))
    if d.CSSLSetCipher cSSL pskCipherSuite = false then
      (none, st.log (Event.csslSetCipher cSSL pskCipherSuite false))
    else
      let st := st.log (Event.csslSetCipher cSSL pskCipherSuite true)
      let st := st.log (Event.csslSetPSKClientID cSSL id)
      let retval := d.CSSLClientConnect cSSL (getidpass st)
      let st := st.log (Event.csslClientConnect cSSL retval)
      if retval ≠ d.CSSL_APP_ERR_EOK then (none, st) else (some cSSL, st)

/-! ## The four operations -/

/-- Source function `GetCaFingerprint(ip, port, caname, aid, apk)`. -/
def GetCaFingerprint (d : Deps) (ip : GoString) (port : Int)
    (caname aid apk : GoString) (st : State) :
    (GoString × Int × Option GoError) × State :=
  let httpReq := d.GetFingerprintRequest caname
  match getconnectedsocket d ip port st with
  | (cfd, st) =>
    if cfd < 0 then (([], -1, some "TCP Connection Failed"), st) else
    -- deferred: syscall.Close(cfd), then invalidateidpass(); run in reverse
    let deferred := fun (st : State) => syscallClose cfd (invalidateidpass st)
    let st := setidpass aid apk st
    match getconnectedcssl d cfd aid st with
    | (none, st) => (([], -1, some "SSL Handshake Failed"), deferred st)
    | (some cSSL, st) =>
      let retval := d.CSSLWrite cSSL httpReq httpReq.length
      let st := st.log (Event.csslWrite cSSL httpReq httpReq.length retval)
      if retval ≠ d.CSSL_APP_ERR_EOK then
        (([], -1, some "Req not Sent"), deferred (CSSLDelete cSSL st))
      else
        match d.CSSLReadN cSSL 2048 with
        | (read_bytes, _rlen, rerr) =>
          let st := st.log (Event.csslReadN cSSL 2048 rerr)
          if rerr ≠ d.CSSL_APP_ERR_EOK then
            (([], -1, some "Error on Read"), deferred (CSSLDelete cSSL st))
          else
            let st := st.log (Event.handleResponse read_bytes)
            match d.HandleGetFingerprintResponse read_bytes with
            | (_, _, some Err) =>
              (([], -1, some Err), deferred (CSSLDelete cSSL st))
            | (Algo, FP, none) =>
              let st := CSSLDelete cSSL st
              -- string(FP): the same bytes
              ((FP, Algo, none), deferred st)

/-- Source function `CreateEnrollmentProfile(ip, port, aid, apk, eid, esecret, caname,
caprofile, role)`. -/
def CreateEnrollmentProfile (d : Deps) (ip : GoString) (port : Int)
    (aid apk eid esecret caname caprofile role : GoString) (st : State) :
    Bool × State :=
  let httpReq := d.GetCreateEnrolProfRequest eid esecret caprofile caname role
  match getconnectedsocket d ip port st with
  | (cfd, st) =>
    if cfd < 0 then (false, st) else
    let deferred := fun (st : State) => syscallClose cfd (invalidateidpass st)
    let st := setidpass aid apk st
    match getconnectedcssl d cfd aid st with
    | (none, st) => (false, deferred st)
    | (some cSSL, st) =>
      let retval := d.CSSLWrite cSSL httpReq httpReq.length
      let st := st.log (Event.csslWrite cSSL httpReq httpReq.length retval)
      if retval ≠ d.CSSL_APP_ERR_EOK then
        (false, deferred (CSSLDelete cSSL st))
      else
        match d.CSSLReadN cSSL 2048 with
        | (read_bytes, _rlen, rerr) =>
          let st := st.log (Event.csslReadN cSSL 2048 rerr)
          if rerr ≠ d.CSSL_APP_ERR_EOK then
            (false, deferred (CSSLDelete cSSL st))
          else
            let st := CSSLDelete cSSL st
            let st := st.log (Event.handleResponse read_bytes)
            (d.HandleCreateEnrolProfResponse read_bytes, deferred st)

/-- Source function `GetCACert(ip, port, eid, esec)`. -/
def GetCACert (d : Deps) (ip : GoString) (port : Int) (eid esec : GoString)
    (st : State) : (GoString × Option GoError) × State :=
  let httpReq := d.GetGetCACertRequest
  match getconnectedsocket d ip port st with
  | (cfd, st) =>
    if cfd < 0 then (([], some "TCP Error"), st) else
    let deferred := fun (st : State) => syscallClose cfd (invalidateidpass st)
    let st := setidpass eid esec st
    match getconnectedcssl d cfd eid st with
    | (none, st) => (([], some "SSL Error"), deferred st)
    | (some cSSL, st) =>
      let retval := d.CSSLWrite cSSL httpReq httpReq.length
      let st := st.log (Event.csslWrite cSSL httpReq httpReq.length retval)
      if retval ≠ d.CSSL_APP_ERR_EOK then
        (([], some "Error Writing Data"), deferred (CSSLDelete cSSL st))
      else
        match d.CSSLReadN cSSL 2048 with
        | (read_bytes, _rlen, rerr) =>
          let st := st.log (Event.csslReadN cSSL 2048 rerr)
          if rerr ≠ d.CSSL_APP_ERR_EOK then
            (([], some "Error Reading Data"), deferred (CSSLDelete cSSL st))
          else
            let st := CSSLDelete cSSL st
            let st := st.log (Event.handleResponse read_bytes)
            (d.HandleGetCACertResponse read_bytes, deferred st)

/-- Source function `GetIDCert(ip, port, eid, esec, kcurve, sigalgo, csr)`: private key,
certificate, error.  The result `none` is a run-time panic (index out of
range); the deferred calls have run in that case too. -/
def GetIDCert (d : Deps) (ip : GoString) (port : Int) (eid esec : GoString)
    (kcurve sigalgo : Nat) (csr : CertAttributes) (st : State) :
    Option (GoString × GoString × Option GoError) × State :=
  match d.GenerateECKey kcurve with
  | (_, some errKey) => (some ([], [], some errKey), st)
  | (pkey, none) =>
    match d.GenerateECCSR csr pkey sigalgo with
    | (_, some errCsr) => (some ([], [], some errCsr), st)
    | (csrDer, none) =>
      let httpReq := d.GetSimpleEnrollRequest csrDer
      match getconnectedsocket d ip port st with
      | (cfd, st) =>
        if cfd < 0 then (some ([], [], some "TCP Error"), st) else
        let deferred :=
          fun (st : State) => syscallClose cfd (invalidateidpass st)
        let st := setidpass eid esec st
        match getconnectedcssl d cfd eid st with
        | (none, st) => (some ([], [], some "SSL Error"), deferred st)
        | (some cSSL, st) =>
          let retval := d.CSSLWrite cSSL httpReq httpReq.length
          let st :=
            st.log (Event.csslWrite cSSL httpReq httpReq.length retval)
          if retval ≠ d.CSSL_APP_ERR_EOK then
            (some ([], [], some "Error Sending Req"),
              deferred (CSSLDelete cSSL st))
          else
            match d.CSSLReadN cSSL 2048 with
            | (read_bytes, _rlen, rerr) =>
              let st := st.log (Event.csslReadN cSSL 2048 rerr)
              if rerr ≠ d.CSSL_APP_ERR_EOK then
                (some ([], [], some "Error Reading Response"),
                  deferred (CSSLDelete cSSL st))
              else
                let st := CSSLDelete cSSL st
                let st := st.log (Event.handleResponse read_bytes)
                match d.HandleSimpleEnrollResponse read_bytes with
                | (_, some errCert) =>
                  (some ([], [], some errCert), deferred st)
                | (CertPem, none) =>
                  let pkeyPem := d.GetECKeyPemWithAttr pkey kcurve
                  let pkeyPem1 := Split pkeyPem blankLine
                  match pkeyPem1[1]? with
                  | none => (none, deferred st)
                  | some key => (some (key, CertPem, none), deferred st)

/-! ## Notions used in the statements -/

/-- The positions at which `sub` occurs in `s`, in increasing order; every
position counts, also one that overlaps an earlier occurrence. -/
def occurrences (sub s : GoString) : List Nat :=
  (List.range (s.length + 1)).filter (fun i => decide (sub <+: s.drop i))

/-- The Credential Scope is empty: `cid = ""` and `cpk = ""`. -/
def credentialScopeEmpty (st : State) : Prop := st.cid = [] ∧ st.cpk = []

/-- The collaborators let a call for the identity `id` with secret `pk` and
request `req` come as far as holding the response bytes: the socket `fd` is
created and connected, the session `cSSL` is created, gets the cipher suite
and completes the handshake, the request is written, and the read returns
`resp` with status OK. -/
def ReadsResponse (d : Deps) (ip : GoString) (port : Int)
    (id pk req : GoString) (fd cSSL : Nat) (resp : GoString) : Prop :=
  d.Socket = some fd ∧
  d.Connect fd ip port = true ∧
  d.CSSLGetNewClient fd = some cSSL ∧
  d.CSSLSetCipher cSSL pskCipherSuite = true ∧
  d.CSSLClientConnect cSSL (getidpass ⟨id, pk, []⟩) = d.CSSL_APP_ERR_EOK ∧
  d.CSSLWrite cSSL req req.length = d.CSSL_APP_ERR_EOK ∧
  (d.CSSLReadN cSSL 2048).1 = resp ∧
  (d.CSSLReadN cSSL 2048).2.2 = d.CSSL_APP_ERR_EOK

/-- The effects of a call from its start up to the moment the response bytes
are in hand, when every step succeeds. -/
def exchangeTrace (d : Deps) (id pk req : GoString) (fd cSSL : Nat) :
    List Event :=
  [Event.socket (some (fd : Int)), Event.connect fd true,
   Event.setidpass id pk,
   Event.csslGetNewClient fd (some cSSL),
   Event.csslSetCipher cSSL pskCipherSuite true,
   Event.csslSetPSKClientID cSSL id,
   Event.csslClientConnect cSSL d.CSSL_APP_ERR_EOK,
   Event.csslWrite cSSL req req.length d.CSSL_APP_ERR_EOK,
   Event.csslReadN cSSL 2048 d.CSSL_APP_ERR_EOK]

/-- Holds when `GetIDCert` gets as far as splitting the encoded key: key and
signing request are generated, the exchange succeeds with response `resp`,
the response handler yields the certificate `CertPem` without error, and
the key encodes to `pkeyPem`. -/
def ReachesKeySplit (d : Deps) (ip : GoString) (port : Int)
    (eid esec : GoString) (kcurve sigalgo : Nat) (csr : CertAttributes)
    (fd cSSL : Nat) (resp CertPem pkeyPem : GoString) : Prop :=
  (d.GenerateECKey kcurve).2 = none ∧
  (d.GenerateECCSR csr (d.GenerateECKey kcurve).1 sigalgo).2 = none ∧
  ReadsResponse d ip port eid esec
    (d.GetSimpleEnrollRequest
      (d.GenerateECCSR csr (d.GenerateECKey kcurve).1 sigalgo).1)
    fd cSSL resp ∧
  d.HandleSimpleEnrollResponse resp = (CertPem, none) ∧
  d.GetECKeyPemWithAttr (d.GenerateECKey kcurve).1 kcurve = pkeyPem

/-- The effects performed before the first invocation of a response handler
on `resp`. -/
def beforeHandler (resp : GoString) (tr : List Event) : List Event :=
  tr.takeWhile (fun e => decide (e ≠ Event.handleResponse resp))

/-- Every resource is released before the response handler runs: the
session `cSSL` is destroyed, the descriptor `fd` is closed and the
credential pair is cleared. -/
def ReleasedBeforeHandler (fd : Int) (cSSL : Nat) (resp : GoString)
    (tr : List Event) : Prop :=
  Event.csslDelete cSSL ∈ beforeHandler resp tr ∧
  Event.close fd ∈ beforeHandler resp tr ∧
  Event.invalidateidpass ∈ beforeHandler resp tr

/-- The session `cSSL` on descriptor `fd` is created and never destroyed,
while the descriptor is closed once. -/
def SessionLeaked (fd : Int) (cSSL : Nat) (tr : List Event) : Prop :=
  Event.csslGetNewClient fd (some cSSL) ∈ tr ∧
  tr.count (Event.csslDelete cSSL) = 0 ∧
  tr.count (Event.close fd) = 1

/-- The transport connect of a call succeeds on the descriptor `fd`. -/
def Connects (d : Deps) (ip : GoString) (port : Int) (fd : Nat) : Prop :=
  d.Socket = some fd ∧ d.Connect fd ip port = true

/-- The transport connect of a call fails: no socket, or a socket that
does not connect. -/
def TransportFails (d : Deps) (ip : GoString) (port : Int) : Prop :=
  d.Socket = none ∨ ∃ fd : Nat, d.Socket = some fd ∧ d.Connect fd ip port = false

/-- Connect succeeds on `fd` and the secure session `cSSL` is established for
the identity `id` with secret `pk`: created, cipher suite set, handshake
completed. -/
def Handshakes (d : Deps) (ip : GoString) (port : Int) (id pk : GoString)
    (fd cSSL : Nat) : Prop :=
  Connects d ip port fd ∧
  d.CSSLGetNewClient fd = some cSSL ∧
  d.CSSLSetCipher cSSL pskCipherSuite = true ∧
  d.CSSLClientConnect cSSL (getidpass ⟨id, pk, []⟩) = d.CSSL_APP_ERR_EOK

/-- Connect succeeds on `fd` and the secure session is not established: no
session object, or the cipher setup fails, or the handshake fails. -/
def HandshakeFails (d : Deps) (ip : GoString) (port : Int) (id pk : GoString)
    (fd : Nat) : Prop :=
  Connects d ip port fd ∧
  (d.CSSLGetNewClient fd = none ∨
    ∃ cSSL : Nat, d.CSSLGetNewClient fd = some cSSL ∧
      (d.CSSLSetCipher cSSL pskCipherSuite = false ∨
        d.CSSLClientConnect cSSL (getidpass ⟨id, pk, []⟩) ≠
          d.CSSL_APP_ERR_EOK))

/-! ## Concrete collaborators -/

/-- Collaborators with which every step succeeds: descriptor 3, session 7,
status OK = 0, a two-byte response, the fingerprint response
`(10, 0xAA 0xBB 0xCC)`, and an encoded key `"P\n\nK"`. -/
def okDeps : Deps where
  CSSL_APP_ERR_EOK := 0
  Socket := some 3
  Connect := fun _ _ _ => true
  CSSLGetNewClient := fun _ => some 7
  CSSLSetCipher := fun _ _ => true
  CSSLClientConnect := fun _ _ => 0
  CSSLWrite := fun _ _ _ => 0
  CSSLReadN := fun _ _ => ([1, 2], 2, 0)
  GetFingerprintRequest := fun _ => ascii "F"
  HandleGetFingerprintResponse := fun _ => (10, [0xAA, 0xBB, 0xCC], none)
  GetCreateEnrolProfRequest := fun _ _ _ _ _ => ascii "E"
  HandleCreateEnrolProfResponse := fun _ => true
  GetGetCACertRequest := ascii "G"
  HandleGetCACertResponse := fun _ => (ascii "C", none)
  GenerateECKey := fun _ => (1, none)
  GenerateECCSR := fun _ _ _ => (ascii "R", none)
  GetSimpleEnrollRequest := fun c => c
  HandleSimpleEnrollResponse := fun _ => (ascii "C", none)
  GetECKeyPemWithAttr := fun _ _ => ascii "P\n\nK"

/-- As `okDeps`, but `syscall.Connect` fails. -/
def connectFailDeps : Deps :=
  { okDeps with Connect := fun _ _ _ => false }

/-- As `okDeps`, but `cssl.CSSLSetCipher` fails. -/
def cipherFailDeps : Deps :=
  { okDeps with CSSLSetCipher := fun _ _ => false }

/-- As `okDeps`, but the handshake `cssl.CSSLClientConnect` fails. -/
def handshakeFailDeps : Deps :=
  { okDeps with CSSLClientConnect := fun _ _ => -1 }

/-- As `okDeps`, but the encoded key is `"P\n\n\nK"`: the separator occurs
at the positions 1 and 2. -/
def overlapDeps : Deps :=
  { okDeps with GetECKeyPemWithAttr := fun _ _ => ascii "P\n\n\nK" }

/-- As `okDeps`, but the encoded key is `"P\n\nK\n\nX"`. -/
def twoBlocksDeps : Deps :=
  { okDeps with GetECKeyPemWithAttr := fun _ _ => ascii "P\n\nK\n\nX" }

/-- As `okDeps`, but `cca.GenerateECKey` fails. -/
def keyGenFailDeps : Deps :=
  { okDeps with GenerateECKey := fun _ => (0, some "unsupported curve") }

/-- As `okDeps`, but the fingerprint handler yields the ASCII text
`AABBCC` as fingerprint bytes. -/
def textFingerprintDeps : Deps :=
  { okDeps with
    HandleGetFingerprintResponse := fun _ => (10, ascii "AABBCC", none) }

/-- As `okDeps`, but `cssl.CSSLWrite` fails. -/
def writeFailDeps : Deps :=
  { okDeps with CSSLWrite := fun _ _ _ => -1 }

/-- The address used in the concrete runs. -/
def host : GoString := ascii "10.0.0.1"

/-- A state with an installed credential pair and no effects so far. -/
def staleState : State := ⟨ascii "old", ascii "pw", []⟩

/-- The state of a fresh process: empty credential pair, no effects. -/
def freshState : State := ⟨[], [], []⟩

/-! ## `strings.Index` and `strings.Split` -/

theorem Index_eq_none_iff (s sub : GoString) :
    Index s sub = none ↔ ∀ i, ¬ sub <+: s.drop i := by
  induction s with
  | nil =>
    by_cases h : sub = []
    · simp [Index, h]
    · simp [Index, h]
  | cons c cs ih =>
    by_cases h : sub <+: c :: cs
    · simp only [Index, h, if_true]
      constructor
      · intro h'; cases h'
      · intro h'; exact absurd h (h' 0)
    · simp only [Index, h, if_false, Option.map_eq_none', ih]
      constructor
      · intro h' i
        cases i with
        | zero => exact h
        | succ i => exact h' i
      · intro h' i
        exact h' (i + 1)

theorem Index_eq_some_iff (s sub : GoString) (m : Nat) :
    Index s sub = some m ↔
      m ≤ s.length ∧ sub <+: s.drop m ∧ ∀ j, j < m → ¬ sub <+: s.drop j := by
  induction s generalizing m with
  | nil =>
    by_cases h : sub = []
    · subst h
      simp [Index]
      constructor
      · intro h; subst h; simp
      · intro h; exact h.1.symm
    · simp [Index, h]
  | cons c cs ih =>
    by_cases h : sub <+: c :: cs
    · simp only [Index, h, if_true, Option.some.injEq]
      constructor
      · intro h'; subst h'; simp [h]
      · rintro ⟨_, _, h3⟩
        cases m with
        | zero => rfl
        | succ m => exact absurd h (h3 0 (Nat.succ_pos m))
    · simp only [Index, h, if_false, Option.map_eq_some']
      constructor
      · rintro ⟨a, ha, rfl⟩
        obtain ⟨h1, h2, h3⟩ := (ih a).1 ha
        refine ⟨by simpa using h1, by simpa using h2, ?_⟩
        intro j hj
        cases j with
        | zero => exact h
        | succ j => simpa using h3 j (by omega)
      · rintro ⟨h1, h2, h3⟩
        cases m with
        | zero => exact absurd h2 h
        | succ m =>
          refine ⟨m, (ih m).2 ⟨by simpa using h1, by simpa using h2, ?_⟩, rfl⟩
          intro j hj
          simpa using h3 (j + 1) (by omega)

theorem Index_some_le {s sub : GoString} {m : Nat} (h : Index s sub = some m) :
    m + sub.length ≤ s.length := by
  obtain ⟨h1, h2, -⟩ := (Index_eq_some_iff s sub m).1 h
  have := h2.length_le
  simp at this
  omega

theorem countLoop_of_none {s sub : GoString} (h : Index s sub = none) (n : Nat) :
    countLoop sub n s = 0 := by
  cases n <;> simp [countLoop, h]

/-- The fuel of `Count` is enough: with a non-empty `substr`, further rounds
beyond `s.length` do not change the count. -/
theorem countLoop_fuel {sub : GoString} (hsub : sub ≠ []) (n : Nat) :
    ∀ s : GoString, s.length ≤ n →
      countLoop sub n s = countLoop sub s.length s := by
  induction n using Nat.strong_induction_on with
  | _ n ih =>
    intro s hs
    cases h : Index s sub with
    | none => rw [countLoop_of_none h, countLoop_of_none h]
    | some i =>
      have hi := Index_some_le h
      have hpos : 0 < sub.length := List.length_pos.2 hsub
      obtain ⟨m, hm⟩ : ∃ m, s.length = m + 1 := ⟨s.length - 1, by omega⟩
      obtain ⟨k, hk⟩ : ∃ k, n = k + 1 := ⟨n - 1, by omega⟩
      have hr : (s.drop (i + sub.length)).length ≤ m := by
        simp only [List.length_drop]
        omega
      subst hk
      rw [hm]
      simp only [countLoop, h]
      rw [ih k (by omega) _ (by omega), ih m (by omega) _ hr]

/-- Element 1 of `Split s "\n\n"`, in terms of `Index`: none without a
separator; otherwise what follows the first separator, up to the next
separator found behind it. -/
theorem Split_blankLine_get (s : GoString) :
    (Split s blankLine)[1]? =
      match Index s blankLine with
      | none => none
      | some m =>
        match Index (s.drop (m + 2)) blankLine with
        | none => some (s.drop (m + 2))
        | some k => some ((s.drop (m + 2)).take k) := by
  have hsep : blankLine ≠ [] := by decide
  have hlen : blankLine.length = 2 := rfl
  simp only [Split, hsep, if_false, Count]
  cases h : Index s blankLine with
  | none => simp [countLoop_of_none h, genSplitLoop]
  | some m =>
    have hm := Index_some_le h
    rw [hlen] at hm
    obtain ⟨n, hn⟩ : ∃ n, s.length = n + 1 := ⟨s.length - 1, by omega⟩
    simp only [hn, countLoop, h, genSplitLoop, hlen]
    cases h2 : Index (s.drop (m + 2)) blankLine with
    | none => simp [countLoop_of_none h2, genSplitLoop]
    | some k =>
      have hk := Index_some_le h2
      rw [hlen] at hk
      simp at hk
      obtain ⟨n2, hn2⟩ : ∃ n2, n = n2 + 1 := ⟨n - 1, by omega⟩
      simp [hn2, countLoop, h2, genSplitLoop]

theorem Split_of_unique {P K : GoString}
    (h1 : Index (P ++ blankLine ++ K) blankLine = some P.length)
    (h2 : Index K blankLine = none) :
    Split (P ++ blankLine ++ K) blankLine = [P, K] := by
  have hsep : blankLine ≠ [] := by decide
  have hlen : blankLine.length = 2 := rfl
  have hd : List.drop (P.length + 2) (P ++ blankLine ++ K) = K := by
    rw [← List.drop_drop, List.append_assoc]
    simp [blankLine]
  have ht : List.take P.length (P ++ blankLine ++ K) = P := by
    rw [List.append_assoc]
    simp
  obtain ⟨n, hn⟩ : ∃ n, (P ++ blankLine ++ K).length = n + 1 :=
    ⟨P.length + K.length + 1, by simp [hlen]; omega⟩
  simp only [Split, hsep, if_false, Count, hn, countLoop, h1, hlen, hd,
    countLoop_of_none h2, genSplitLoop, ht]

/-! ## Occurrences of the separator -/

theorem blankLine_occurs_le {s : GoString} {i : Nat}
    (h : blankLine <+: s.drop i) : i + 2 ≤ s.length := by
  have := h.length_le
  simp [blankLine] at this
  omega

theorem mem_occurrences_blankLine (s : GoString) (i : Nat) :
    i ∈ occurrences blankLine s ↔ blankLine <+: s.drop i := by
  simp only [occurrences, List.mem_filter, List.mem_range, decide_eq_true_eq]
  constructor
  · exact fun h => h.2
  · intro h
    have := blankLine_occurs_le h
    exact ⟨by omega, h⟩

theorem occurrences_sorted (sub s : GoString) :
    (occurrences sub s).Pairwise (· < ·) :=
  (List.pairwise_lt_range _).filter _

theorem Index_of_occurrences_nil {s : GoString}
    (h : occurrences blankLine s = []) : Index s blankLine = none := by
  rw [Index_eq_none_iff]
  intro i hi
  have := (mem_occurrences_blankLine s i).2 hi
  simp [h] at this

theorem Index_of_occurrences_cons {s : GoString} {i1 : Nat} {rest : List Nat}
    (h : occurrences blankLine s = i1 :: rest) :
    Index s blankLine = some i1 := by
  have hs := occurrences_sorted blankLine s
  rw [h, List.pairwise_cons] at hs
  have h1 : blankLine <+: s.drop i1 :=
    (mem_occurrences_blankLine s i1).1 (by simp [h])
  rw [Index_eq_some_iff]
  refine ⟨by have := blankLine_occurs_le h1; omega, h1, ?_⟩
  intro j hj hocc
  have hmem := (mem_occurrences_blankLine s j).2 hocc
  rw [h, List.mem_cons] at hmem
  rcases hmem with rfl | hmem
  · omega
  · have := hs.1 j hmem
    omega

theorem Index_after_first {s : GoString} {i1 i2 : Nat} {rest : List Nat}
    (h : occurrences blankLine s = i1 :: i2 :: rest) (hno : i1 + 2 ≤ i2) :
    Index (s.drop (i1 + 2)) blankLine = some (i2 - (i1 + 2)) := by
  have hs := occurrences_sorted blankLine s
  rw [h, List.pairwise_cons, List.pairwise_cons] at hs
  have h2 : blankLine <+: s.drop i2 :=
    (mem_occurrences_blankLine s i2).1 (by simp [h])
  have hle := blankLine_occurs_le h2
  rw [Index_eq_some_iff]
  refine ⟨by simp; omega, ?_, ?_⟩
  · rw [List.drop_drop]
    have : i1 + 2 + (i2 - (i1 + 2)) = i2 := by omega
    rw [this]
    exact h2
  · intro j hj hocc
    rw [List.drop_drop] at hocc
    have hmem := (mem_occurrences_blankLine s _).2 hocc
    rw [h, List.mem_cons, List.mem_cons] at hmem
    rcases hmem with h' | h' | h'
    · omega
    · omega
    · have := hs.2.1 _ h'
      omega

theorem Index_of_unique {P K : GoString}
    (h : (occurrences blankLine (P ++ blankLine ++ K)).length = 1) :
    Index (P ++ blankLine ++ K) blankLine = some P.length ∧
      Index K blankLine = none := by
  have hP : P.length ∈ occurrences blankLine (P ++ blankLine ++ K) := by
    rw [mem_occurrences_blankLine]
    simp [List.append_assoc]
  obtain ⟨a, ha⟩ := List.length_eq_one.1 h
  have haP : a = P.length := by
    rw [ha] at hP
    exact (List.mem_singleton.1 hP).symm
  subst haP
  refine ⟨Index_of_occurrences_cons ha, ?_⟩
  rw [Index_eq_none_iff]
  intro i hi
  have hmem :
      P.length + 2 + i ∈ occurrences blankLine (P ++ blankLine ++ K) := by
    rw [mem_occurrences_blankLine]
    have : (P ++ blankLine ++ K).drop (P.length + 2 + i) = K.drop i := by
      rw [← List.drop_drop, List.append_assoc]
      simp [blankLine]
    rw [this]
    exact hi
  rw [ha] at hmem
  simp at hmem
  omega

/-! ## Credential scope -/

theorem getidpass_log (st : State) (e : Event) (id : GoString) :
    getidpass (st.log e) id = getidpass st id := rfl

theorem getidpass_foldl_log (es : List Event) (st : State) (id : GoString) :
    getidpass (es.foldl State.log st) id = getidpass st id := by
  induction es generalizing st with
  | nil => rfl
  | cons e es ih => simp only [List.foldl_cons, ih, getidpass_log]

/-- C7: after `setidpass(i, s)` the lookup `getidpass(id)` returns `s` when
`id = i` and `id` is non-empty, and the empty string in every other case; in
particular for every `id` different from `i`, and for the empty `id`
whatever `i` is. -/
theorem getidpass_after_setidpass (i s id : GoString) (st : State) :
    getidpass (setidpass i s st) id = (if id = i ∧ id ≠ [] then s else []) ∧
    (id ≠ i → getidpass (setidpass i s st) id = []) ∧
    getidpass (setidpass i s st) [] = [] := by
  refine ⟨?_, ?_, ?_⟩
  · by_cases h1 : id = i <;> by_cases h2 : id = [] <;>
      simp [getidpass, setidpass, h1, h2]
  · intro h
    simp [getidpass, setidpass, h]
  · simp [getidpass]

theorem getidpass_after_setidpass_witness :
    getidpass (setidpass (ascii "admin") (ascii "pw") freshState) (ascii "eve")
      = [] :=
  (getidpass_after_setidpass (ascii "admin") (ascii "pw") (ascii "eve")
    freshState).2.1 (by decide)

/-- C8: once `invalidateidpass` has run, `getidpass(id)` returns the empty
string for every identity and every earlier credential pair, and it keeps
doing so through any further effects that are not a `setidpass`. -/
theorem getidpass_after_invalidateidpass (st : State) (es : List Event)
    (id : GoString) :
    getidpass (invalidateidpass st) id = [] ∧
    getidpass (es.foldl State.log (invalidateidpass st)) id = [] := by
  have h : getidpass (invalidateidpass st) id = [] := by
    by_cases h : id = [] <;> simp [getidpass, invalidateidpass, h]
  exact ⟨h, (getidpass_foldl_log es _ id).trans h⟩

/-! ## The operations: credential scope -/

theorem getconnectedsocket_cred (d : Deps) (ip : GoString) (port : Int)
    (st : State) :
    (getconnectedsocket d ip port st).2.cid = st.cid ∧
      (getconnectedsocket d ip port st).2.cpk = st.cpk := by
  unfold getconnectedsocket
  split
  · simp [State.log]
  · split <;> simp [State.log]

theorem deferred_cred (fd : Int) (st : State) :
    credentialScopeEmpty (syscallClose fd (invalidateidpass st)) := by
  simp [credentialScopeEmpty, syscallClose, invalidateidpass, State.log]

theorem GetCaFingerprint_cred (d : Deps) (ip : GoString) (port : Int)
    (caname aid apk : GoString) (st : State) :
    (0 ≤ (getconnectedsocket d ip port st).1 →
      credentialScopeEmpty (GetCaFingerprint d ip port caname aid apk st).2) ∧
    (credentialScopeEmpty st →
      credentialScopeEmpty (GetCaFingerprint d ip port caname aid apk st).2) := by
  have hc := getconnectedsocket_cred d ip port st
  unfold GetCaFingerprint
  simp only []
  split_ifs with h
  · refine ⟨fun h' => absurd h (by omega), fun h' => ?_⟩
    exact ⟨hc.1.trans h'.1, hc.2.trans h'.2⟩
  · refine ⟨fun _ => ?_, fun _ => ?_⟩ <;>
    · repeat' split
      all_goals exact deferred_cred _ _

theorem CreateEnrollmentProfile_cred (d : Deps) (ip : GoString) (port : Int)
    (aid apk eid esecret caname caprofile role : GoString) (st : State) :
    (0 ≤ (getconnectedsocket d ip port st).1 →
      credentialScopeEmpty
        (CreateEnrollmentProfile d ip port aid apk eid esecret caname
          caprofile role st).2) ∧
    (credentialScopeEmpty st →
      credentialScopeEmpty
        (CreateEnrollmentProfile d ip port aid apk eid esecret caname
          caprofile role st).2) := by
  have hc := getconnectedsocket_cred d ip port st
  unfold CreateEnrollmentProfile
  simp only []
  split_ifs with h
  · refine ⟨fun h' => absurd h (by omega), fun h' => ?_⟩
    exact ⟨hc.1.trans h'.1, hc.2.trans h'.2⟩
  · refine ⟨fun _ => ?_, fun _ => ?_⟩ <;>
    · repeat' split
      all_goals exact deferred_cred _ _

theorem GetCACert_cred (d : Deps) (ip : GoString) (port : Int)
    (eid esec : GoString) (st : State) :
    (0 ≤ (getconnectedsocket d ip port st).1 →
      credentialScopeEmpty (GetCACert d ip port eid esec st).2) ∧
    (credentialScopeEmpty st →
      credentialScopeEmpty (GetCACert d ip port eid esec st).2) := by
  have hc := getconnectedsocket_cred d ip port st
  unfold GetCACert
  simp only []
  split_ifs with h
  · refine ⟨fun h' => absurd h (by omega), fun h' => ?_⟩
    exact ⟨hc.1.trans h'.1, hc.2.trans h'.2⟩
  · refine ⟨fun _ => ?_, fun _ => ?_⟩ <;>
    · repeat' split
      all_goals exact deferred_cred _ _

theorem GetIDCert_cred (d : Deps) (ip : GoString) (port : Int)
    (eid esec : GoString) (kcurve sigalgo : Nat) (csr : CertAttributes)
    (st : State) :
    ((d.GenerateECKey kcurve).2 = none →
      (d.GenerateECCSR csr (d.GenerateECKey kcurve).1 sigalgo).2 = none →
      0 ≤ (getconnectedsocket d ip port st).1 →
      credentialScopeEmpty
        (GetIDCert d ip port eid esec kcurve sigalgo csr st).2) ∧
    (credentialScopeEmpty st →
      credentialScopeEmpty
        (GetIDCert d ip port eid esec kcurve sigalgo csr st).2) := by
  have hc := getconnectedsocket_cred d ip port st
  unfold GetIDCert
  split
  · next k e hk =>
    refine ⟨fun h => ?_, fun h => h⟩
    simp [hk] at h
  · next k hk =>
    split
    · next c e hcsr =>
      refine ⟨fun _ h => ?_, fun h => h⟩
      simp [hk, hcsr] at h
    · simp only []
      split_ifs with h
      · refine ⟨fun _ _ h' => absurd h (by omega), fun h' => ?_⟩
        exact ⟨hc.1.trans h'.1, hc.2.trans h'.2⟩
      · refine ⟨fun _ _ _ => ?_, fun _ => ?_⟩ <;>
        · repeat' split
          all_goals exact deferred_cred _ _

/-! ## The operations: a call that reads its response -/

theorem GetCaFingerprint_exchange (d : Deps) (ip : GoString) (port : Int)
    (caname aid apk : GoString) (fd cSSL : Nat) (resp : GoString)
    (st : State)
    (h : ReadsResponse d ip port aid apk (d.GetFingerprintRequest caname)
      fd cSSL resp) :
    GetCaFingerprint d ip port caname aid apk st =
      ((match d.HandleGetFingerprintResponse resp with
        | (_, _, some Err) => ([], -1, some Err)
        | (Algo, FP, none) => (FP, Algo, none)),
        ⟨[], [], st.trace ++
          exchangeTrace d aid apk (d.GetFingerprintRequest caname) fd cSSL ++
          [Event.handleResponse resp, Event.csslDelete cSSL,
            Event.invalidateidpass, Event.close fd]⟩) := by
  obtain ⟨h1, h2, h3, h4, h5, h6, h7, h8⟩ := h
  have h5' : ∀ t, d.CSSLClientConnect cSSL (getidpass ⟨aid, apk, t⟩) =
      d.CSSL_APP_ERR_EOK := fun _ => h5
  rcases hr : d.CSSLReadN cSSL 2048 with ⟨bytes, rlen, rerr⟩
  rw [hr] at h7 h8
  simp only at h7 h8
  subst h7 h8
  rcases hh : d.HandleGetFingerprintResponse bytes with ⟨a, f, _ | e⟩ <;>
    simp [GetCaFingerprint, getconnectedsocket, getconnectedcssl, setidpass,
      invalidateidpass, syscallClose, CSSLDelete, State.log, exchangeTrace,
      h1, h2, h3, h4, h5', h6, hr, hh]

theorem CreateEnrollmentProfile_exchange (d : Deps) (ip : GoString)
    (port : Int) (aid apk eid esecret caname caprofile role : GoString)
    (fd cSSL : Nat) (resp : GoString) (st : State)
    (h : ReadsResponse d ip port aid apk
      (d.GetCreateEnrolProfRequest eid esecret caprofile caname role)
      fd cSSL resp) :
    CreateEnrollmentProfile d ip port aid apk eid esecret caname caprofile
        role st =
      (d.HandleCreateEnrolProfResponse resp,
        ⟨[], [], st.trace ++
          exchangeTrace d aid apk
            (d.GetCreateEnrolProfRequest eid esecret caprofile caname role)
            fd cSSL ++
          [Event.csslDelete cSSL, Event.handleResponse resp,
            Event.invalidateidpass, Event.close fd]⟩) := by
  obtain ⟨h1, h2, h3, h4, h5, h6, h7, h8⟩ := h
  have h5' : ∀ t, d.CSSLClientConnect cSSL (getidpass ⟨aid, apk, t⟩) =
      d.CSSL_APP_ERR_EOK := fun _ => h5
  rcases hr : d.CSSLReadN cSSL 2048 with ⟨bytes, rlen, rerr⟩
  rw [hr] at h7 h8
  simp only at h7 h8
  subst h7 h8
  simp [CreateEnrollmentProfile, getconnectedsocket, getconnectedcssl,
    setidpass, invalidateidpass, syscallClose, CSSLDelete, State.log,
    exchangeTrace, h1, h2, h3, h4, h5', h6, hr]

theorem GetCACert_exchange (d : Deps) (ip : GoString) (port : Int)
    (eid esec : GoString) (fd cSSL : Nat) (resp : GoString) (st : State)
    (h : ReadsResponse d ip port eid esec d.GetGetCACertRequest fd cSSL
      resp) :
    GetCACert d ip port eid esec st =
      (d.HandleGetCACertResponse resp,
        ⟨[], [], st.trace ++
          exchangeTrace d eid esec d.GetGetCACertRequest fd cSSL ++
          [Event.csslDelete cSSL, Event.handleResponse resp,
            Event.invalidateidpass, Event.close fd]⟩) := by
  obtain ⟨h1, h2, h3, h4, h5, h6, h7, h8⟩ := h
  have h5' : ∀ t, d.CSSLClientConnect cSSL (getidpass ⟨eid, esec, t⟩) =
      d.CSSL_APP_ERR_EOK := fun _ => h5
  rcases hr : d.CSSLReadN cSSL 2048 with ⟨bytes, rlen, rerr⟩
  rw [hr] at h7 h8
  simp only at h7 h8
  subst h7 h8
  simp [GetCACert, getconnectedsocket, getconnectedcssl, setidpass,
    invalidateidpass, syscallClose, CSSLDelete, State.log, exchangeTrace,
    h1, h2, h3, h4, h5', h6, hr]

theorem GetIDCert_exchange (d : Deps) (ip : GoString) (port : Int)
    (eid esec : GoString) (kcurve sigalgo : Nat) (csr : CertAttributes)
    (fd cSSL : Nat) (resp : GoString) (st : State)
    (hk : (d.GenerateECKey kcurve).2 = none)
    (hc : (d.GenerateECCSR csr (d.GenerateECKey kcurve).1 sigalgo).2 = none)
    (h : ReadsResponse d ip port eid esec
      (d.GetSimpleEnrollRequest
        (d.GenerateECCSR csr (d.GenerateECKey kcurve).1 sigalgo).1)
      fd cSSL resp) :
    GetIDCert d ip port eid esec kcurve sigalgo csr st =
      ((match d.HandleSimpleEnrollResponse resp with
        | (_, some errCert) => some ([], [], some errCert)
        | (CertPem, none) =>
          match (Split
              (d.GetECKeyPemWithAttr (d.GenerateECKey kcurve).1 kcurve)
              blankLine)[1]? with
          | none => none
          | some key => some (key, CertPem, none)),
        ⟨[], [], st.trace ++
          exchangeTrace d eid esec
            (d.GetSimpleEnrollRequest
              (d.GenerateECCSR csr (d.GenerateECKey kcurve).1 sigalgo).1)
            fd cSSL ++
          [Event.csslDelete cSSL, Event.handleResponse resp,
            Event.invalidateidpass, Event.close fd]⟩) := by
  rcases hkey : d.GenerateECKey kcurve with ⟨pkey, ek⟩
  rw [hkey] at hk hc h
  simp only at hk hc h
  subst hk
  rcases hcsr : d.GenerateECCSR csr pkey sigalgo with ⟨csrDer, ec⟩
  rw [hcsr] at hc h
  simp only at hc h
  subst hc
  obtain ⟨h1, h2, h3, h4, h5, h6, h7, h8⟩ := h
  have h5' : ∀ t, d.CSSLClientConnect cSSL (getidpass ⟨eid, esec, t⟩) =
      d.CSSL_APP_ERR_EOK := fun _ => h5
  rcases hr : d.CSSLReadN cSSL 2048 with ⟨bytes, rlen, rerr⟩
  rw [hr] at h7 h8
  simp only at h7 h8
  subst h7 h8
  rcases hh : d.HandleSimpleEnrollResponse bytes with ⟨cert, _ | e⟩
  · rcases hs : (Split (d.GetECKeyPemWithAttr pkey kcurve) blankLine)[1]?
      with _ | key <;>
      simp [GetIDCert, getconnectedsocket, getconnectedcssl, setidpass,
        invalidateidpass, syscallClose, CSSLDelete, State.log, exchangeTrace,
        h1, h2, h3, h4, h5', h6, hr, hh, hkey, hcsr, hs]
  · simp [GetIDCert, getconnectedsocket, getconnectedcssl, setidpass,
      invalidateidpass, syscallClose, CSSLDelete, State.log, exchangeTrace,
      h1, h2, h3, h4, h5', h6, hr, hh, hkey, hcsr]

theorem GetIDCert_key_split (d : Deps) (ip : GoString) (port : Int)
    (eid esec : GoString) (kcurve sigalgo : Nat) (csr : CertAttributes)
    (fd cSSL : Nat) (resp CertPem pkeyPem : GoString) (st : State)
    (h : ReachesKeySplit d ip port eid esec kcurve sigalgo csr fd cSSL resp
      CertPem pkeyPem) :
    (GetIDCert d ip port eid esec kcurve sigalgo csr st).1 =
      match (Split pkeyPem blankLine)[1]? with
      | none => none
      | some key => some (key, CertPem, none) := by
  obtain ⟨hk, hc, hr, hh, hp⟩ := h
  rw [GetIDCert_exchange d ip port eid esec kcurve sigalgo csr fd cSSL resp
    st hk hc hr]
  simp only [hh, hp]

theorem GetIDCert_error_empty (d : Deps) (ip : GoString) (port : Int)
    (eid esec : GoString) (kcurve sigalgo : Nat) (csr : CertAttributes)
    (st : State) (k c : GoString) (e : GoError)
    (h : (GetIDCert d ip port eid esec kcurve sigalgo csr st).1 =
      some (k, c, some e)) :
    k = [] ∧ c = [] := by
  unfold GetIDCert at h
  simp only [] at h
  repeat' split at h
  all_goals simp_all

theorem GetCaFingerprint_outcomes (d : Deps) (ip : GoString) (port : Int)
    (caname aid apk : GoString) (st : State) :
    (∃ e, (GetCaFingerprint d ip port caname aid apk st).1 =
      ([], -1, some e)) ∨
    (∃ resp Algo FP,
      d.HandleGetFingerprintResponse resp = (Algo, FP, none) ∧
      (GetCaFingerprint d ip port caname aid apk st).1 = (FP, Algo, none)) := by
  unfold GetCaFingerprint
  simp only []
  repeat' split
  all_goals first
    | exact Or.inl ⟨_, rfl⟩
    | exact Or.inr ⟨_, _, _, by assumption, rfl⟩

/-! ## `GetCaFingerprint`: the outcomes one by one -/

theorem GetCaFingerprint_transport_fails (d : Deps) (ip : GoString) (port : Int)
    (caname aid apk : GoString) (st : State) (h : TransportFails d ip port) :
    (GetCaFingerprint d ip port caname aid apk st).1 =
      ([], -1, some "TCP Connection Failed") := by
  rcases h with h | ⟨fd, h1, h2⟩
  · simp [GetCaFingerprint, getconnectedsocket, h]
  · simp [GetCaFingerprint, getconnectedsocket, h1, h2]

theorem GetCaFingerprint_handshake_fails (d : Deps) (ip : GoString) (port : Int)
    (caname aid apk : GoString) (fd : Nat) (st : State)
    (h : HandshakeFails d ip port aid apk fd) :
    (GetCaFingerprint d ip port caname aid apk st).1 =
      ([], -1, some "SSL Handshake Failed") := by
  obtain ⟨⟨h1, h2⟩, h3⟩ := h
  have hfd : ¬ ((fd : Int) < 0) := by omega
  rcases h3 with h3 | ⟨cSSL, h3, h4⟩
  · simp [GetCaFingerprint, getconnectedsocket, getconnectedcssl, h1, h2, h3, hfd]
  · by_cases hc : d.CSSLSetCipher cSSL pskCipherSuite = false
    · simp [GetCaFingerprint, getconnectedsocket, getconnectedcssl, h1, h2, h3, hc, hfd]
    · have h5 : d.CSSLClientConnect cSSL (getidpass ⟨aid, apk, []⟩) ≠
          d.CSSL_APP_ERR_EOK := by
        rcases h4 with h4 | h4
        · exact absurd h4 hc
        · exact h4
      have h5' : ∀ t, ¬ d.CSSLClientConnect cSSL (getidpass ⟨aid, apk, t⟩) =
          d.CSSL_APP_ERR_EOK := fun _ => h5
      simp [GetCaFingerprint, getconnectedsocket, getconnectedcssl, setidpass,
        State.log, h1, h2, h3, hc, h5', hfd]

theorem GetCaFingerprint_write_fails (d : Deps) (ip : GoString) (port : Int)
    (caname aid apk : GoString) (fd cSSL : Nat) (st : State)
    (h : Handshakes d ip port aid apk fd cSSL)
    (hw : d.CSSLWrite cSSL (d.GetFingerprintRequest caname)
      (d.GetFingerprintRequest caname).length ≠ d.CSSL_APP_ERR_EOK) :
    (GetCaFingerprint d ip port caname aid apk st).1 =
      ([], -1, some "Req not Sent") := by
  obtain ⟨⟨h1, h2⟩, h3, h4, h5⟩ := h
  have hfd : ¬ ((fd : Int) < 0) := by omega
  have h5' : ∀ t, d.CSSLClientConnect cSSL (getidpass ⟨aid, apk, t⟩) =
      d.CSSL_APP_ERR_EOK := fun _ => h5
  simp [GetCaFingerprint, getconnectedsocket, getconnectedcssl, setidpass,
    State.log, h1, h2, h3, h4, h5', hw, hfd]

theorem GetCaFingerprint_read_fails (d : Deps) (ip : GoString) (port : Int)
    (caname aid apk : GoString) (fd cSSL : Nat) (st : State)
    (h : Handshakes d ip port aid apk fd cSSL)
    (hw : d.CSSLWrite cSSL (d.GetFingerprintRequest caname)
      (d.GetFingerprintRequest caname).length = d.CSSL_APP_ERR_EOK)
    (hr : (d.CSSLReadN cSSL 2048).2.2 ≠ d.CSSL_APP_ERR_EOK) :
    (GetCaFingerprint d ip port caname aid apk st).1 =
      ([], -1, some "Error on Read") := by
  obtain ⟨⟨h1, h2⟩, h3, h4, h5⟩ := h
  have hfd : ¬ ((fd : Int) < 0) := by omega
  have h5' : ∀ t, d.CSSLClientConnect cSSL (getidpass ⟨aid, apk, t⟩) =
      d.CSSL_APP_ERR_EOK := fun _ => h5
  rcases hread : d.CSSLReadN cSSL 2048 with ⟨bytes, rlen, rerr⟩
  rw [hread] at hr
  simp only at hr
  simp [GetCaFingerprint, getconnectedsocket, getconnectedcssl, setidpass,
    State.log, h1, h2, h3, h4, h5', hw, hread, hr, hfd]

theorem GetCaFingerprint_parse_fails (d : Deps) (ip : GoString) (port : Int)
    (caname aid apk : GoString) (fd cSSL : Nat) (resp : GoString) (e : GoError)
    (st : State)
    (h : ReadsResponse d ip port aid apk (d.GetFingerprintRequest caname)
      fd cSSL resp)
    (he : (d.HandleGetFingerprintResponse resp).2.2 = some e) :
    (GetCaFingerprint d ip port caname aid apk st).1 = ([], -1, some e) := by
  rw [GetCaFingerprint_exchange d ip port caname aid apk fd cSSL resp st h]
  rcases hh : d.HandleGetFingerprintResponse resp with ⟨a, f, ee⟩
  rw [hh] at he
  simp only at he
  subst he
  rfl

/-- Every call of `GetCaFingerprint` falls under one of the outcomes. -/
theorem GetCaFingerprint_outcome_cases (d : Deps) (ip : GoString) (port : Int)
    (caname aid apk : GoString) :
    TransportFails d ip port ∨
    (∃ fd, HandshakeFails d ip port aid apk fd) ∨
    (∃ fd cSSL, Handshakes d ip port aid apk fd cSSL ∧
      d.CSSLWrite cSSL (d.GetFingerprintRequest caname)
        (d.GetFingerprintRequest caname).length ≠ d.CSSL_APP_ERR_EOK) ∨
    (∃ fd cSSL, Handshakes d ip port aid apk fd cSSL ∧
      d.CSSLWrite cSSL (d.GetFingerprintRequest caname)
        (d.GetFingerprintRequest caname).length = d.CSSL_APP_ERR_EOK ∧
      (d.CSSLReadN cSSL 2048).2.2 ≠ d.CSSL_APP_ERR_EOK) ∨
    (∃ fd cSSL resp,
      ReadsResponse d ip port aid apk (d.GetFingerprintRequest caname) fd cSSL
        resp) := by
  rcases h1 : d.Socket with _ | fd
  · exact Or.inl (Or.inl h1)
  by_cases h2 : d.Connect fd ip port = true
  swap
  · exact Or.inl (Or.inr ⟨fd, h1, by simpa using h2⟩)
  right
  rcases h3 : d.CSSLGetNewClient fd with _ | cSSL
  · exact Or.inl ⟨fd, ⟨h1, h2⟩, Or.inl h3⟩
  by_cases h4 : d.CSSLSetCipher cSSL pskCipherSuite = true
  swap
  · exact Or.inl ⟨fd, ⟨h1, h2⟩, Or.inr ⟨cSSL, h3, Or.inl (by simpa using h4)⟩⟩
  by_cases h5 : d.CSSLClientConnect cSSL (getidpass ⟨aid, apk, []⟩) =
      d.CSSL_APP_ERR_EOK
  swap
  · exact Or.inl ⟨fd, ⟨h1, h2⟩, Or.inr ⟨cSSL, h3, Or.inr h5⟩⟩
  right
  have hs : Handshakes d ip port aid apk fd cSSL := ⟨⟨h1, h2⟩, h3, h4, h5⟩
  by_cases h6 : d.CSSLWrite cSSL (d.GetFingerprintRequest caname)
      (d.GetFingerprintRequest caname).length = d.CSSL_APP_ERR_EOK
  swap
  · exact Or.inl ⟨fd, cSSL, hs, h6⟩
  right
  by_cases h7 : (d.CSSLReadN cSSL 2048).2.2 = d.CSSL_APP_ERR_EOK
  swap
  · exact Or.inl ⟨fd, cSSL, hs, h6, h7⟩
  exact Or.inr ⟨fd, cSSL, (d.CSSLReadN cSSL 2048).1, h1, h2, h3, h4, h5, h6, rfl, h7⟩

/-! ## The claims about the operations -/

/-- C1 (the code departs from the claim): when `CSSLGetNewClient` has returned
a session and the cipher setup or the handshake then fails,
`getconnectedcssl` returns nil without `CSSLDelete`.  In each of the four
operations the session 7 is created and never destroyed by the time the call
returns, while the socket 3 is closed once. -/
theorem session_leaked_on_handshake_failure :
    SessionLeaked 3 7
      (GetCaFingerprint cipherFailDeps host 8443 (ascii "ca") (ascii "admin")
        (ascii "pw") freshState).2.trace ∧
    SessionLeaked 3 7
      (CreateEnrollmentProfile cipherFailDeps host 8443 (ascii "admin")
        (ascii "pw") (ascii "peer") (ascii "s") (ascii "ca") (ascii "p")
        (ascii "r") freshState).2.trace ∧
    SessionLeaked 3 7
      (GetCACert cipherFailDeps host 8443 (ascii "peer") (ascii "s")
        freshState).2.trace ∧
    SessionLeaked 3 7
      (GetIDCert cipherFailDeps host 8443 (ascii "peer") (ascii "s") 1 10 0
        freshState).2.trace ∧
    SessionLeaked 3 7
      (GetCaFingerprint handshakeFailDeps host 8443 (ascii "ca")
        (ascii "admin") (ascii "pw") freshState).2.trace ∧
    SessionLeaked 3 7
      (CreateEnrollmentProfile handshakeFailDeps host 8443 (ascii "admin")
        (ascii "pw") (ascii "peer") (ascii "s") (ascii "ca") (ascii "p")
        (ascii "r") freshState).2.trace ∧
    SessionLeaked 3 7
      (GetCACert handshakeFailDeps host 8443 (ascii "peer") (ascii "s")
        freshState).2.trace ∧
    SessionLeaked 3 7
      (GetIDCert handshakeFailDeps host 8443 (ascii "peer") (ascii "s") 1 10
        0 freshState).2.trace := by
  unfold SessionLeaked
  decide

/-- C2: for each of the four operations and every outcome, an empty
Credential Scope at the start of the call is empty when the call is over;
and whenever connect succeeded (so that `setidpass` was called) `cid` and
`cpk` are both empty afterwards, whatever identity and secret were supplied
(for `GetIDCert`: when key and signing request were generated, so that
connect is reached; a panic at the key split runs the deferred calls too). -/
theorem credential_scope_cleared (d : Deps) (ip : GoString) (port : Int)
    (caname aid apk eid esec esecret caprofile role : GoString)
    (kcurve sigalgo : Nat) (csr : CertAttributes) (st : State) :
    (credentialScopeEmpty st →
      credentialScopeEmpty (GetCaFingerprint d ip port caname aid apk st).2 ∧
      credentialScopeEmpty
        (CreateEnrollmentProfile d ip port aid apk eid esecret caname
          caprofile role st).2 ∧
      credentialScopeEmpty (GetCACert d ip port eid esec st).2 ∧
      credentialScopeEmpty
        (GetIDCert d ip port eid esec kcurve sigalgo csr st).2) ∧
    (0 ≤ (getconnectedsocket d ip port st).1 →
      credentialScopeEmpty (GetCaFingerprint d ip port caname aid apk st).2 ∧
      credentialScopeEmpty
        (CreateEnrollmentProfile d ip port aid apk eid esecret caname
          caprofile role st).2 ∧
      credentialScopeEmpty (GetCACert d ip port eid esec st).2 ∧
      ((d.GenerateECKey kcurve).2 = none →
        (d.GenerateECCSR csr (d.GenerateECKey kcurve).1 sigalgo).2 = none →
        credentialScopeEmpty
          (GetIDCert d ip port eid esec kcurve sigalgo csr st).2)) :=
  ⟨fun h =>
    ⟨(GetCaFingerprint_cred d ip port caname aid apk st).2 h,
      (CreateEnrollmentProfile_cred d ip port aid apk eid esecret caname
        caprofile role st).2 h,
      (GetCACert_cred d ip port eid esec st).2 h,
      (GetIDCert_cred d ip port eid esec kcurve sigalgo csr st).2 h⟩,
   fun h =>
    ⟨(GetCaFingerprint_cred d ip port caname aid apk st).1 h,
      (CreateEnrollmentProfile_cred d ip port aid apk eid esecret caname
        caprofile role st).1 h,
      (GetCACert_cred d ip port eid esec st).1 h,
      fun hk hc =>
        (GetIDCert_cred d ip port eid esec kcurve sigalgo csr st).1 hk hc h⟩⟩

theorem credential_scope_cleared_witness :
    0 ≤ (getconnectedsocket handshakeFailDeps host 8443 staleState).1 ∧
    credentialScopeEmpty
      (GetCACert handshakeFailDeps host 8443 (ascii "peer") (ascii "s")
        staleState).2 :=
  ⟨by decide,
    ((credential_scope_cleared handshakeFailDeps host 8443 (ascii "ca")
      (ascii "admin") (ascii "pw") (ascii "peer") (ascii "s") (ascii "es")
      (ascii "p") (ascii "r") 1 10 0 staleState).2 (by decide)).2.2.1⟩

/-- C3, as stated, fails: in a successful `GetCACert` the response handler runs
while the socket is still open and the credential pair still installed;
`syscall.Close` and `invalidateidpass` are deferred and run after it. -/
theorem handler_runs_before_release :
    ¬ ReleasedBeforeHandler 3 7 [1, 2]
      (GetCACert okDeps host 8443 (ascii "peer") (ascii "s")
        freshState).2.trace := by
  unfold ReleasedBeforeHandler
  decide

/-- C3, amended: on every call in which the response bytes were read,
`CreateEnrollmentProfile`, `GetCACert` and `GetIDCert` destroy the secure
session before the response handler is invoked; in all four operations
clearing the Credential Scope and closing the connection are the last two
effects of the call and come after the handler has run; and in all four
operations everything is released when the call is over: the session is
destroyed exactly once, the connection is closed exactly once and the
Credential Scope is empty. -/
theorem session_destroyed_before_handler (d : Deps) (ip : GoString) (port : Int)
    (caname aid apk eid esec esecret caprofile role : GoString)
    (kcurve sigalgo : Nat) (csr : CertAttributes)
    (fd cSSL : Nat) (resp : GoString) (st : State) :
    (ReadsResponse d ip port aid apk
        (d.GetCreateEnrolProfRequest eid esecret caprofile caname role)
        fd cSSL resp →
      (CreateEnrollmentProfile d ip port aid apk eid esecret caname caprofile
          role st).2 =
        ⟨[], [], st.trace ++
          exchangeTrace d aid apk
            (d.GetCreateEnrolProfRequest eid esecret caprofile caname role)
            fd cSSL ++
          [Event.csslDelete cSSL, Event.handleResponse resp,
            Event.invalidateidpass, Event.close fd]⟩) ∧
    (ReadsResponse d ip port eid esec d.GetGetCACertRequest fd cSSL resp →
      (GetCACert d ip port eid esec st).2 =
        ⟨[], [], st.trace ++
          exchangeTrace d eid esec d.GetGetCACertRequest fd cSSL ++
          [Event.csslDelete cSSL, Event.handleResponse resp,
            Event.invalidateidpass, Event.close fd]⟩) ∧
    ((d.GenerateECKey kcurve).2 = none →
      (d.GenerateECCSR csr (d.GenerateECKey kcurve).1 sigalgo).2 = none →
      ReadsResponse d ip port eid esec
        (d.GetSimpleEnrollRequest
          (d.GenerateECCSR csr (d.GenerateECKey kcurve).1 sigalgo).1)
        fd cSSL resp →
      (GetIDCert d ip port eid esec kcurve sigalgo csr st).2 =
        ⟨[], [], st.trace ++
          exchangeTrace d eid esec
            (d.GetSimpleEnrollRequest
              (d.GenerateECCSR csr (d.GenerateECKey kcurve).1 sigalgo).1)
            fd cSSL ++
          [Event.csslDelete cSSL, Event.handleResponse resp,
            Event.invalidateidpass, Event.close fd]⟩) ∧
    (ReadsResponse d ip port aid apk (d.GetFingerprintRequest caname) fd cSSL
        resp →
      ∃ pre,
        (GetCaFingerprint d ip port caname aid apk st).2 =
          ⟨[], [], st.trace ++ pre ++
            [Event.invalidateidpass, Event.close fd]⟩ ∧
        Event.handleResponse resp ∈ pre ∧
        Event.invalidateidpass ∉ pre ∧ Event.close fd ∉ pre ∧
        pre.count (Event.csslDelete cSSL) = 1) := by
  refine ⟨fun h => ?_, fun h => ?_, fun hk hc h => ?_, fun h => ?_⟩
  · rw [CreateEnrollmentProfile_exchange d ip port aid apk eid esecret caname
      caprofile role fd cSSL resp st h]
  · rw [GetCACert_exchange d ip port eid esec fd cSSL resp st h]
  · rw [GetIDCert_exchange d ip port eid esec kcurve sigalgo csr fd cSSL resp
      st hk hc h]
  · refine ⟨exchangeTrace d aid apk (d.GetFingerprintRequest caname) fd cSSL ++
      [Event.handleResponse resp, Event.csslDelete cSSL], ?_, ?_, ?_, ?_, ?_⟩
    · rw [GetCaFingerprint_exchange d ip port caname aid apk fd cSSL resp st h]
      simp
    · simp
    · simp [exchangeTrace]
    · simp [exchangeTrace]
    · simp [exchangeTrace, List.count_cons]

theorem session_destroyed_before_handler_witness :
    ReadsResponse okDeps host 8443 (ascii "peer") (ascii "s")
      okDeps.GetGetCACertRequest 3 7 [1, 2] ∧
    (GetCACert okDeps host 8443 (ascii "peer") (ascii "s") freshState).2 =
      ⟨[], [], freshState.trace ++
        exchangeTrace okDeps (ascii "peer") (ascii "s")
          okDeps.GetGetCACertRequest 3 7 ++
        [Event.csslDelete 7, Event.handleResponse [1, 2],
          Event.invalidateidpass, Event.close ((3 : Nat) : Int)]⟩ :=
  ⟨by unfold ReadsResponse; decide,
    (session_destroyed_before_handler okDeps host 8443 (ascii "ca")
      (ascii "admin") (ascii "pw") (ascii "peer") (ascii "s") (ascii "es")
      (ascii "p") (ascii "r") 1 10 0 3 7 [1, 2] freshState).2.1
      (by unfold ReadsResponse; decide)⟩

/-- C4 (the code departs from the claim): when `syscall.Socket` succeeds and
`syscall.Connect` fails, each of the four operations returns its failure
result, creates no session, leaves the Credential Scope as it was and writes
nothing, but the descriptor 3 opened by `getconnectedsocket` is never
closed. -/
theorem socket_leaked_on_connect_failure :
    GetCaFingerprint connectFailDeps host 8443 (ascii "ca") (ascii "admin")
        (ascii "pw") staleState =
      (([], -1, some "TCP Connection Failed"),
        ⟨ascii "old", ascii "pw",
          [Event.socket (some 3), Event.connect 3 false]⟩) ∧
    CreateEnrollmentProfile connectFailDeps host 8443 (ascii "admin")
        (ascii "pw") (ascii "peer") (ascii "s") (ascii "ca") (ascii "p")
        (ascii "r") staleState =
      (false,
        ⟨ascii "old", ascii "pw",
          [Event.socket (some 3), Event.connect 3 false]⟩) ∧
    GetCACert connectFailDeps host 8443 (ascii "peer") (ascii "s") staleState =
      (([], some "TCP Error"),
        ⟨ascii "old", ascii "pw",
          [Event.socket (some 3), Event.connect 3 false]⟩) ∧
    GetIDCert connectFailDeps host 8443 (ascii "peer") (ascii "s") 1 10 0
        staleState =
      (some ([], [], some "TCP Error"),
        ⟨ascii "old", ascii "pw",
          [Event.socket (some 3), Event.connect 3 false]⟩) := by
  decide

/-- C5: `GetIDCert` enrollment atomicity.  If key generation or CSR generation
fails, the result is `("", "", err)` with the generator's error and the state
is untouched: no socket, no credential install, no session, no write or
read.  If the response handler fails, the result is `("", "", err)`.
Whenever the returned error is non-nil both returned strings are empty. -/
theorem GetIDCert_atomicity (d : Deps) (ip : GoString) (port : Int)
    (eid esec : GoString) (kcurve sigalgo : Nat) (csr : CertAttributes)
    (st : State) :
    (∀ e, (d.GenerateECKey kcurve).2 = some e →
      GetIDCert d ip port eid esec kcurve sigalgo csr st =
        (some ([], [], some e), st)) ∧
    (∀ e, (d.GenerateECKey kcurve).2 = none →
      (d.GenerateECCSR csr (d.GenerateECKey kcurve).1 sigalgo).2 = some e →
      GetIDCert d ip port eid esec kcurve sigalgo csr st =
        (some ([], [], some e), st)) ∧
    (∀ fd cSSL resp e, (d.GenerateECKey kcurve).2 = none →
      (d.GenerateECCSR csr (d.GenerateECKey kcurve).1 sigalgo).2 = none →
      ReadsResponse d ip port eid esec
        (d.GetSimpleEnrollRequest
          (d.GenerateECCSR csr (d.GenerateECKey kcurve).1 sigalgo).1)
        fd cSSL resp →
      (d.HandleSimpleEnrollResponse resp).2 = some e →
      (GetIDCert d ip port eid esec kcurve sigalgo csr st).1 =
        some ([], [], some e)) ∧
    (∀ k c e,
      (GetIDCert d ip port eid esec kcurve sigalgo csr st).1 =
        some (k, c, some e) →
      k = [] ∧ c = []) := by
  refine ⟨fun e h => ?_, fun e hk h => ?_, fun fd cSSL resp e hk hc hr hh => ?_,
    fun k c e h => GetIDCert_error_empty d ip port eid esec kcurve sigalgo csr
      st k c e h⟩
  · rcases hkey : d.GenerateECKey kcurve with ⟨pkey, ek⟩
    rw [hkey] at h
    simp only at h
    subst h
    simp [GetIDCert, hkey]
  · rcases hkey : d.GenerateECKey kcurve with ⟨pkey, ek⟩
    rw [hkey] at hk h
    simp only at hk h
    subst hk
    rcases hcsr : d.GenerateECCSR csr pkey sigalgo with ⟨csrDer, ec⟩
    rw [hcsr] at h
    simp only at h
    subst h
    simp [GetIDCert, hkey, hcsr]
  · rw [GetIDCert_exchange d ip port eid esec kcurve sigalgo csr fd cSSL resp
      st hk hc hr]
    rcases hresp : d.HandleSimpleEnrollResponse resp with ⟨cert, ec⟩
    rw [hresp] at hh
    simp only at hh
    subst hh
    rfl

theorem GetIDCert_atomicity_witness :
    (keyGenFailDeps.GenerateECKey 1).2 = some "unsupported curve" ∧
    GetIDCert keyGenFailDeps host 8443 (ascii "peer") (ascii "s") 1 10 0
        staleState =
      (some ([], [], some "unsupported curve"), staleState) :=
  ⟨by decide,
    (GetIDCert_atomicity keyGenFailDeps host 8443 (ascii "peer") (ascii "s")
      1 10 0 staleState).1 "unsupported curve" (by decide)⟩

/-- C6: PEM split contract.  For an encoded key `P ++ "\n\n" ++ K` in which
`"\n\n"` occurs exactly once, the split is `[P, K]` and the private key
returned by `GetIDCert` on the success path is exactly `K`, the element at
index 1. -/
theorem GetIDCert_returns_key_block (d : Deps) (ip : GoString) (port : Int)
    (eid esec : GoString) (kcurve sigalgo : Nat) (csr : CertAttributes)
    (fd cSSL : Nat) (resp CertPem P K : GoString) (st : State)
    (h : ReachesKeySplit d ip port eid esec kcurve sigalgo csr fd cSSL resp
      CertPem (P ++ blankLine ++ K))
    (hone : (occurrences blankLine (P ++ blankLine ++ K)).length = 1) :
    Split (P ++ blankLine ++ K) blankLine = [P, K] ∧
    (GetIDCert d ip port eid esec kcurve sigalgo csr st).1 =
      some (K, CertPem, none) := by
  obtain ⟨h1, h2⟩ := Index_of_unique hone
  have hs := Split_of_unique h1 h2
  refine ⟨hs, ?_⟩
  rw [GetIDCert_key_split d ip port eid esec kcurve sigalgo csr fd cSSL resp
    CertPem _ st h, hs]
  rfl

theorem GetIDCert_returns_key_block_witness :
    (occurrences blankLine (ascii "P" ++ blankLine ++ ascii "K")).length = 1 ∧
    (GetIDCert okDeps host 8443 (ascii "peer") (ascii "s") 1 10 0
        freshState).1 = some (ascii "K", ascii "C", none) :=
  ⟨by decide,
    (GetIDCert_returns_key_block okDeps host 8443 (ascii "peer") (ascii "s")
      1 10 0 3 7 [1, 2] (ascii "C") (ascii "P") (ascii "K") freshState
      (by unfold ReachesKeySplit ReadsResponse; decide) (by decide)).2⟩

/-- C9, as stated, fails: for the handler result `(10, 0xAA 0xBB 0xCC)` the
fingerprint returned by `GetCaFingerprint` is the three bytes themselves,
not the six characters `AABBCC`. -/
theorem fingerprint_not_hex :
    (GetCaFingerprint okDeps host 8443 (ascii "ca") (ascii "admin")
        (ascii "pw") freshState).1 = ([0xAA, 0xBB, 0xCC], 10, none) ∧
    (GetCaFingerprint okDeps host 8443 (ascii "ca") (ascii "admin")
        (ascii "pw") freshState).1 ≠ (ascii "AABBCC", 10, none) := by
  decide

/-- C9, amended: when connect, handshake, write and read succeed and the
handler yields algorithm `a` and fingerprint bytes `f` without error,
`GetCaFingerprint` returns `(string(f), a, nil)`, the bytes of `f` unchanged.
On every failing outcome it returns `("", -1, err)` with a non-nil error:
transport failure, handshake failure (no session object, cipher setup or
handshake), write failure, read failure, and a handler error, which is
passed on.  These outcomes and the success are all there is, and every
result is either a handler result without error or `("", -1, err)`. -/
theorem GetCaFingerprint_result (d : Deps) (ip : GoString) (port : Int)
    (caname aid apk : GoString) (fd cSSL : Nat) (resp : GoString)
    (a : Int) (f : GoString) (e : GoError) (st : State) :
    (ReadsResponse d ip port aid apk (d.GetFingerprintRequest caname) fd cSSL
        resp →
      d.HandleGetFingerprintResponse resp = (a, f, none) →
      (GetCaFingerprint d ip port caname aid apk st).1 = (f, a, none)) ∧
    (TransportFails d ip port →
      (GetCaFingerprint d ip port caname aid apk st).1 =
        ([], -1, some "TCP Connection Failed")) ∧
    (HandshakeFails d ip port aid apk fd →
      (GetCaFingerprint d ip port caname aid apk st).1 =
        ([], -1, some "SSL Handshake Failed")) ∧
    (Handshakes d ip port aid apk fd cSSL →
      d.CSSLWrite cSSL (d.GetFingerprintRequest caname)
        (d.GetFingerprintRequest caname).length ≠ d.CSSL_APP_ERR_EOK →
      (GetCaFingerprint d ip port caname aid apk st).1 =
        ([], -1, some "Req not Sent")) ∧
    (Handshakes d ip port aid apk fd cSSL →
      d.CSSLWrite cSSL (d.GetFingerprintRequest caname)
        (d.GetFingerprintRequest caname).length = d.CSSL_APP_ERR_EOK →
      (d.CSSLReadN cSSL 2048).2.2 ≠ d.CSSL_APP_ERR_EOK →
      (GetCaFingerprint d ip port caname aid apk st).1 =
        ([], -1, some "Error on Read")) ∧
    (ReadsResponse d ip port aid apk (d.GetFingerprintRequest caname) fd cSSL
        resp →
      (d.HandleGetFingerprintResponse resp).2.2 = some e →
      (GetCaFingerprint d ip port caname aid apk st).1 = ([], -1, some e)) ∧
    (TransportFails d ip port ∨
      (∃ fd, HandshakeFails d ip port aid apk fd) ∨
      (∃ fd cSSL, Handshakes d ip port aid apk fd cSSL ∧
        d.CSSLWrite cSSL (d.GetFingerprintRequest caname)
          (d.GetFingerprintRequest caname).length ≠ d.CSSL_APP_ERR_EOK) ∨
      (∃ fd cSSL, Handshakes d ip port aid apk fd cSSL ∧
        d.CSSLWrite cSSL (d.GetFingerprintRequest caname)
          (d.GetFingerprintRequest caname).length = d.CSSL_APP_ERR_EOK ∧
        (d.CSSLReadN cSSL 2048).2.2 ≠ d.CSSL_APP_ERR_EOK) ∨
      (∃ fd cSSL resp,
        ReadsResponse d ip port aid apk (d.GetFingerprintRequest caname) fd
          cSSL resp)) ∧
    ((∃ e, (GetCaFingerprint d ip port caname aid apk st).1 =
        ([], -1, some e)) ∨
      (∃ resp Algo FP,
        d.HandleGetFingerprintResponse resp = (Algo, FP, none) ∧
        (GetCaFingerprint d ip port caname aid apk st).1 =
          (FP, Algo, none))) := by
  refine ⟨fun h hh => ?_,
    GetCaFingerprint_transport_fails d ip port caname aid apk st,
    GetCaFingerprint_handshake_fails d ip port caname aid apk fd st,
    GetCaFingerprint_write_fails d ip port caname aid apk fd cSSL st,
    GetCaFingerprint_read_fails d ip port caname aid apk fd cSSL st,
    GetCaFingerprint_parse_fails d ip port caname aid apk fd cSSL resp e st,
    GetCaFingerprint_outcome_cases d ip port caname aid apk,
    GetCaFingerprint_outcomes d ip port caname aid apk st⟩
  rw [GetCaFingerprint_exchange d ip port caname aid apk fd cSSL resp st h, hh]

theorem GetCaFingerprint_result_witness :
    (GetCaFingerprint textFingerprintDeps host 8443 (ascii "ca")
      (ascii "admin") (ascii "pw") freshState).1 =
      (ascii "AABBCC", 10, none) ∧
    (GetCaFingerprint writeFailDeps host 8443 (ascii "ca") (ascii "admin")
      (ascii "pw") freshState).1 = ([], -1, some "Req not Sent") :=
  ⟨(GetCaFingerprint_result textFingerprintDeps host 8443 (ascii "ca")
      (ascii "admin") (ascii "pw") 3 7 [1, 2] 10 (ascii "AABBCC") ""
      freshState).1 (by unfold ReadsResponse; decide) (by decide),
    (GetCaFingerprint_result writeFailDeps host 8443 (ascii "ca")
      (ascii "admin") (ascii "pw") 3 7 [1, 2] 10 (ascii "AABBCC") ""
      freshState).2.2.2.1 (by unfold Handshakes Connects; decide)
      (by decide)⟩

/-- C10, as stated, fails: in `"P\n\n\nK"` the separator occurs at the
positions 1 and 2, and the key returned is `"\nK"`, everything behind the
first occurrence, not a segment between the first and the second one. -/
theorem overlapping_separators_key :
    occurrences blankLine (ascii "P\n\n\nK") = [1, 2] ∧
    ¬ (∀ i1 i2 rest, occurrences blankLine (ascii "P\n\n\nK") = i1 :: i2 :: rest →
        (GetIDCert overlapDeps host 8443 (ascii "peer") (ascii "s") 1 10 0
          freshState).1 =
        some (((ascii "P\n\n\nK").drop (i1 + 2)).take (i2 - (i1 + 2)),
          ascii "C", none)) := by
  refine ⟨by decide, fun h => ?_⟩
  have := h 1 2 [] (by decide)
  revert this
  decide

/-- C10, amended: on the otherwise successful path of `GetIDCert`, an encoded
key without `"\n\n"` splits into one element and the call panics (no
result); there is a result exactly when the encoded key contains `"\n\n"`;
and when the second occurrence does not overlap the first, the returned key
is the segment between the two. -/
theorem GetIDCert_key_index (d : Deps) (ip : GoString) (port : Int)
    (eid esec : GoString) (kcurve sigalgo : Nat) (csr : CertAttributes)
    (fd cSSL : Nat) (resp CertPem pkeyPem : GoString) (st : State)
    (h : ReachesKeySplit d ip port eid esec kcurve sigalgo csr fd cSSL resp
      CertPem pkeyPem) :
    (occurrences blankLine pkeyPem = [] →
      Split pkeyPem blankLine = [pkeyPem] ∧
      (GetIDCert d ip port eid esec kcurve sigalgo csr st).1 = none) ∧
    ((GetIDCert d ip port eid esec kcurve sigalgo csr st).1 ≠ none ↔
      occurrences blankLine pkeyPem ≠ []) ∧
    (∀ i1 i2 rest, occurrences blankLine pkeyPem = i1 :: i2 :: rest →
      i1 + 2 ≤ i2 →
      (GetIDCert d ip port eid esec kcurve sigalgo csr st).1 =
        some ((pkeyPem.drop (i1 + 2)).take (i2 - (i1 + 2)), CertPem, none)) := by
  have hg := GetIDCert_key_split d ip port eid esec kcurve sigalgo csr fd cSSL
    resp CertPem pkeyPem st h
  rw [Split_blankLine_get] at hg
  refine ⟨fun hocc => ?_, ?_, fun i1 i2 rest hocc hno => ?_⟩
  · have hi := Index_of_occurrences_nil hocc
    refine ⟨?_, by rw [hg, hi]⟩
    have hsep : blankLine ≠ [] := by decide
    simp [Split, hsep, Count, countLoop_of_none hi, genSplitLoop]
  · cases hocc : occurrences blankLine pkeyPem with
    | nil =>
      rw [hg, Index_of_occurrences_nil hocc]
      simp
    | cons i1 rest =>
      rw [hg, Index_of_occurrences_cons hocc]
      simp only []
      cases hi : Index (List.drop (i1 + 2) pkeyPem) blankLine <;> simp
  · rw [hg, Index_of_occurrences_cons hocc]
    simp only []
    rw [Index_after_first hocc hno]

theorem GetIDCert_key_index_witness :
    occurrences blankLine (ascii "P\n\nK\n\nX") = [1, 4] ∧
    (GetIDCert twoBlocksDeps host 8443 (ascii "peer") (ascii "s") 1 10 0
        freshState).1 =
      some (((ascii "P\n\nK\n\nX").drop (1 + 2)).take (4 - (1 + 2)),
        ascii "C", none) :=
  ⟨by decide,
    (GetIDCert_key_index twoBlocksDeps host 8443 (ascii "peer") (ascii "s")
      1 10 0 3 7 [1, 2] (ascii "C") (ascii "P\n\nK\n\nX") freshState
      (by unfold ReachesKeySplit ReadsResponse; decide)).2.2 1 4 []
      (by decide) (by decide)⟩

end Caclient
